import Mathlib

/-!
# ECDH key agreement entry points (`main.go`)

A shallow embedding of `parseRequest`, `checkCurve`, `GenerateKeyPair` and
`GetSharedKey`.  The packages `crypto/ecdh`, `crypto/rand` and `encoding/json`
are external to the program: they are taken as parameters (`Ecdh`, `Json`) and
every property of them that a result relies on is a named, explicit hypothesis.
Go `error` values are represented by their message (`err.Error()`), a Go run-time
panic by `none`, the package-level variable `curve` by the field of `State`.
-/

namespace Main

/-! ## Data model -/

/-- One element of a Go `[]byte`. -/
abbrev Byte := Fin 256

/-- A Go `[]byte` value. -/
abbrev Bytes := List Byte

/-- Constant `P256` (main.go:13). -/
def P256 : String := "P-256"
/-- Constant `P384` (main.go:14). -/
def P384 : String := "P-384"
/-- Constant `P521` (main.go:15). -/
def P521 : String := "P-521"
/-- Constant `X25519` (main.go:16). -/
def X25519 : String := "X25519"

/-- The four values `ecdh.P256()`, `ecdh.P384()`, `ecdh.P521()`, `ecdh.X25519()`
of the interface type `ecdh.Curve` that the program can obtain. -/
inductive Curve where
  | P256
  | P384
  | P521
  | X25519
  deriving DecidableEq, Repr

/-- The identifier under which `checkCurve` selects each curve (main.go:154-161). -/
def Curve.name : Curve → String
  | .P256 => Main.P256
  | .P384 => Main.P384
  | .P521 => Main.P521
  | .X25519 => Main.X25519

/-- Struct `EcdhKeyPair` (main.go:21-25). -/
structure EcdhKeyPair where
  Curve : String
  PublicKey : Bytes
  PrivateKey : Bytes
  deriving DecidableEq, Repr

/-- Struct `requestMessage[T]` (main.go:31-33). -/
structure requestMessage (T : Type) where
  Payload : T
  deriving DecidableEq, Repr

/-- Struct `responseMessage[T]` (main.go:40-43). -/
structure responseMessage (T : Type) where
  Payload : T
  Error : String
  deriving DecidableEq, Repr

/-- The instantiations of `responseMessage[T]` that the entry points build:
`responseMessage[string]`, `responseMessage[*EcdhKeyPair]` (a pointer, `none` is
`nil`) and `responseMessage[[]byte]`. -/
inductive Response where
  | string (m : responseMessage String)
  | keyPair (m : responseMessage (Option EcdhKeyPair))
  | bytes (m : responseMessage Bytes)
  deriving DecidableEq, Repr

/-- The package-level state: `var curve ecdh.Curve` (main.go:19), `nil` (`none`)
when the program starts. -/
structure State where
  curve : Option Curve
  deriving DecidableEq, Repr

/-! ## External packages, as parameters -/

/-- The part of `crypto/ecdh` (and of the reader `crypto/rand.Reader`) that the
program calls.  `Rand` stands for what the reader delivers to one `GenerateKey`
call; an error is its message. -/
structure Ecdh where
  /-- What `rand.Reader` delivers to one call of `GenerateKey`. -/
  Rand : Type
  /-- Type `*ecdh.PrivateKey`. -/
  PrivateKey : Type
  /-- Type `*ecdh.PublicKey`. -/
  PublicKey : Type
  /-- Method `Curve.GenerateKey`. -/
  GenerateKey : Curve → Rand → Except String PrivateKey
  /-- Method `Curve.NewPrivateKey`. -/
  NewPrivateKey : Curve → Bytes → Except String PrivateKey
  /-- Method `Curve.NewPublicKey`. -/
  NewPublicKey : Curve → Bytes → Except String PublicKey
  /-- Method `(*PrivateKey).PublicKey`. -/
  publicKeyOf : PrivateKey → PublicKey
  /-- Method `(*PrivateKey).Bytes`. -/
  privateBytes : PrivateKey → Bytes
  /-- Method `(*PublicKey).Bytes`. -/
  publicBytes : PublicKey → Bytes
  /-- Method `(*PrivateKey).ECDH`. -/
  ECDH : PrivateKey → PublicKey → Except String Bytes

/-- The part of `encoding/json` that the program calls: `json.Unmarshal` into a
`requestMessage[string]` and into a `requestMessage[EcdhKeyPair]`, and
`json.Marshal` of a response. -/
structure Json where
  /-- Function `json.Unmarshal` at `*requestMessage[string]`. -/
  UnmarshalString : Bytes → Except String (requestMessage String)
  /-- Function `json.Unmarshal` at `*requestMessage[EcdhKeyPair]`. -/
  UnmarshalKeyPair : Bytes → Except String (requestMessage EcdhKeyPair)
  /-- Function `json.Marshal` at a response message (its error is discarded by
  `Marshall`, main.go:45-48). -/
  Marshal : Response → Bytes

/-- Function `fmt.Sprintln` at one string operand: the operand and a newline. -/
def Sprintln (s : String) : String := s ++ "\n"

/-- Function `fmt.Sprintf("Unsupported curv name: %s", curvName)` (main.go:163). -/
def Sprintf_unsupported (curvName : String) : String :=
  "Unsupported curv name: " ++ curvName

/-! ## The program -/

/-- Function `parseRequest[T]` (main.go:49-58). -/
def parseRequest {T : Type} (Unmarshal : Bytes → Except String (requestMessage T))
    (data : Bytes) : Except String (requestMessage T) :=
  if data.length = 0 then
    .error (Sprintln "Data is empty!")
  else
    match Unmarshal data with
    | .error err => .error err
    | .ok request => .ok request

/-- Function `checkCurve` (main.go:149-167).  Each recognised case assigns the
package-level variable `curve`; line 166 returns the value just assigned. -/
def checkCurve (curvName : String) (st : State) : Except String Curve × State :=
  if curvName = "" then
    (.error (Sprintln "Curv name is empty!"), st)
  else if curvName = P256 then
    (.ok Curve.P256, { st with curve := some Curve.P256 })
  else if curvName = P384 then
    (.ok Curve.P384, { st with curve := some Curve.P384 })
  else if curvName = P521 then
    (.ok Curve.P521, { st with curve := some Curve.P521 })
  else if curvName = X25519 then
    (.ok Curve.X25519, { st with curve := some Curve.X25519 })
  else
    (.error (Sprintf_unsupported curvName), st)

/-- Lines 92-96 of `GenerateKeyPair`: the stored public key.  The slice expression
`b[1:len(b)]` panics (`none`) on an empty `b`. -/
def GenerateKeyPair.changedPablic (payload : String) (b : Bytes) : Option Bytes :=
  if payload ≠ X25519 then
    match b with
    | [] => none
    | _ :: rest => some rest
  else
    some b

/-- The function literal of `GenerateKeyPair` (main.go:73-103): `none` is a panic,
otherwise the pair `(keyPair, err)` it returns. -/
def GenerateKeyPair.func1 (E : Ecdh) (J : Json) (data : Bytes) (rnd : E.Rand)
    (st : State) : Option (Except String EcdhKeyPair) × State :=
  match parseRequest J.UnmarshalString data with
  | .error err => (some (.error err), st)
  | .ok parse =>
    match checkCurve parse.Payload st with
    | (.error err, st1) => (some (.error err), st1)
    | (.ok curve, st1) =>
      match E.GenerateKey curve rnd with
      | .error err => (some (.error err), st1)
      | .ok privateKey =>
        match E.NewPublicKey curve (E.publicBytes (E.publicKeyOf privateKey)) with
        | .error err => (some (.error err), st1)
        | .ok publicKey =>
          match GenerateKeyPair.changedPablic parse.Payload (E.publicBytes publicKey) with
          | none => (none, st1)
          | some changedPablic =>
            (some (.ok { Curve := parse.Payload,
                         PublicKey := changedPablic,
                         PrivateKey := E.privateBytes privateKey }), st1)

/-- The response message that `GenerateKeyPair` builds (main.go:105-109). -/
def GenerateKeyPair.response (E : Ecdh) (J : Json) (data : Bytes) (rnd : E.Rand)
    (st : State) : Option Response × State :=
  match GenerateKeyPair.func1 E J data rnd st with
  | (none, st1) => (none, st1)
  | (some (.error err), st1) => (some (.string { Payload := "", Error := err }), st1)
  | (some (.ok keyPair), st1) =>
    (some (.keyPair { Payload := some keyPair, Error := "" }), st1)

/-- Function `GenerateKeyPair` (main.go:72-111): the marshalled response. -/
def GenerateKeyPair (E : Ecdh) (J : Json) (data : Bytes) (rnd : E.Rand)
    (st : State) : Option Bytes × State :=
  match GenerateKeyPair.response E J data rnd st with
  | (none, st1) => (none, st1)
  | (some response, st1) => (some (J.Marshal response), st1)

/-- Lines 123-127 of `GetSharedKey`: the peer encoding handed to the library. -/
def GetSharedKey.changedPablic (curveName : String) (publicKey : Bytes) : Bytes :=
  if curveName ≠ X25519 then
    [(4 : Byte)] ++ publicKey
  else
    publicKey

/-- The function literal of `GetSharedKey` (main.go:113-141): the pair
`(sh, err)` it returns. -/
def GetSharedKey.func1 (E : Ecdh) (J : Json) (data : Bytes) (st : State) :
    Except String Bytes × State :=
  match parseRequest J.UnmarshalKeyPair data with
  | .error err => (.error err, st)
  | .ok dataParse =>
    match checkCurve dataParse.Payload.Curve st with
    | (.error err, st1) => (.error err, st1)
    | (.ok curve, st1) =>
      let changedPablic :=
        GetSharedKey.changedPablic dataParse.Payload.Curve dataParse.Payload.PublicKey
      match E.NewPrivateKey curve dataParse.Payload.PrivateKey with
      | .error err => (.error err, st1)
      | .ok newPrivateKey =>
        match E.NewPublicKey curve changedPablic with
        | .error err => (.error err, st1)
        | .ok newPublicKey =>
          match E.ECDH newPrivateKey newPublicKey with
          | .error err => (.error err, st1)
          | .ok sk => (.ok sk, st1)

/-- The response message that `GetSharedKey` builds (main.go:142-146). -/
def GetSharedKey.response (E : Ecdh) (J : Json) (data : Bytes) (st : State) :
    Response × State :=
  match GetSharedKey.func1 E J data st with
  | (.error err, st1) => (.string { Payload := "", Error := err }, st1)
  | (.ok sk, st1) => (.bytes { Payload := sk, Error := "" }, st1)

/-- Function `GetSharedKey` (main.go:112-148): the marshalled response. -/
def GetSharedKey (E : Ecdh) (J : Json) (data : Bytes) (st : State) : Bytes × State :=
  match GetSharedKey.response E J data st with
  | (response, st1) => (J.Marshal response, st1)

/-! ## Per-curve sizes -/

/-- Size of the library's public-key encoding: the first number of each line of
the comment above `GenerateKeyPair` (main.go:67-70). -/
def nativePublicSize : Curve → Nat
  | .P256 => 65
  | .P384 => 97
  | .P521 => 133
  | .X25519 => 32

/-- Size of the stored public key: the number in brackets in that comment. -/
def storedPublicSize : Curve → Nat
  | .P256 => 64
  | .P384 => 96
  | .P521 => 132
  | .X25519 => 32

/-- Size of the private key in that comment. -/
def privateSize : Curve → Nat
  | .P256 => 32
  | .P384 => 48
  | .P521 => 66
  | .X25519 => 32

/-- Size of the shared secret in that comment. -/
def sharedSize : Curve → Nat
  | .P256 => 32
  | .P384 => 48
  | .P521 => 66
  | .X25519 => 32

/-! ## Properties of the external packages that results rely on -/

/-- A parsed public key returns the bytes it was parsed from. -/
def Ecdh.KeepsPublicBytes (E : Ecdh) : Prop :=
  ∀ c b p, E.NewPublicKey c b = .ok p → E.publicBytes p = b

/-- On the three Weierstrass curves only encodings that start with the tag byte
`0x04` are accepted. -/
def Ecdh.UncompressedTag (E : Ecdh) : Prop :=
  ∀ c b p, c ≠ Curve.X25519 → E.NewPublicKey c b = .ok p → ∃ t, b = (4 : Byte) :: t

/-- The encoding of a parsed public key has the native size of its curve. -/
def Ecdh.NativePublicSize (E : Ecdh) : Prop :=
  ∀ c b p, E.NewPublicKey c b = .ok p → (E.publicBytes p).length = nativePublicSize c

/-- The encoding of a generated private key has the private size of its curve. -/
def Ecdh.PrivateSize (E : Ecdh) : Prop :=
  ∀ c r k, E.GenerateKey c r = .ok k → (E.privateBytes k).length = privateSize c

/-- An encoding of the wrong size is not accepted as a public key. -/
def Ecdh.RejectsWrongSize (E : Ecdh) : Prop :=
  ∀ c b, b.length ≠ nativePublicSize c → ∃ e, E.NewPublicKey c b = .error e

/-- A shared secret computed from parsed keys has the shared size of the curve of
the private key. -/
def Ecdh.SharedSize (E : Ecdh) : Prop :=
  ∀ c b k c2 b2 p s, E.NewPrivateKey c b = .ok k → E.NewPublicKey c2 b2 = .ok p →
    E.ECDH k p = .ok s → s.length = sharedSize c

/-- Parsing the encoding of a generated private key gives that key back. -/
def Ecdh.ReparsesPrivate (E : Ecdh) : Prop :=
  ∀ c r k, E.GenerateKey c r = .ok k → E.NewPrivateKey c (E.privateBytes k) = .ok k

/-- Diffie-Hellman agreement of the library: for two generated keys of one curve,
each combined with the parsed public key of the other, `ECDH` succeeds with the
same bytes. -/
def Ecdh.Agreement (E : Ecdh) : Prop :=
  ∀ c ra rb a b pa pb, E.GenerateKey c ra = .ok a → E.GenerateKey c rb = .ok b →
    E.NewPublicKey c (E.publicBytes (E.publicKeyOf a)) = .ok pa →
    E.NewPublicKey c (E.publicBytes (E.publicKeyOf b)) = .ok pb →
    ∃ s, E.ECDH a pb = .ok s ∧ E.ECDH b pa = .ok s

/-- No error of the library has the empty message. -/
def Ecdh.ErrorsNonEmpty (E : Ecdh) : Prop :=
  (∀ c r, E.GenerateKey c r ≠ .error "") ∧
  (∀ c b, E.NewPrivateKey c b ≠ .error "") ∧
  (∀ c b, E.NewPublicKey c b ≠ .error "") ∧
  (∀ k p, E.ECDH k p ≠ .error "")

/-- No error of the decoder has the empty message. -/
def Json.ErrorsNonEmpty (J : Json) : Prop :=
  (∀ d, J.UnmarshalString d ≠ .error "") ∧ (∀ d, J.UnmarshalKeyPair d ≠ .error "")

/-! ## A small instance of the external packages

`Toy.ecdh` has the checks on sizes and on the tag byte that the properties above
describe, over a toy group (bytewise products in `Fin 256`, not elliptic-curve
arithmetic); `Toy.json` is a length-framed stand-in for the wire format.  They
instantiate the properties above on concrete inputs. -/

namespace Toy

/-- A key of the toy library: its curve and its encoding. -/
structure Key where
  curve : Curve
  bytes : Bytes
  deriving DecidableEq, Repr

/-- The toy generator. -/
def base : Byte := 3

/-- The toy x-coordinate of the public key of a scalar. -/
def xOf (scalar : Bytes) : Bytes := scalar.map (fun s => base * s)

/-- The native encoding of the public key of a scalar. -/
def encode (c : Curve) (scalar : Bytes) : Bytes :=
  if c = Curve.X25519 then xOf scalar else (4 : Byte) :: (xOf scalar ++ xOf scalar)

/-- The x-coordinate inside a native encoding. -/
def xPart (c : Curve) (b : Bytes) : Bytes :=
  if c = Curve.X25519 then b else (b.drop 1).take (privateSize c)

/-- Toy `GenerateKey`: the first bytes of the reader. -/
def GenerateKey (c : Curve) (rnd : Bytes) : Except String Key :=
  if rnd.length < privateSize c then .error "unexpected EOF"
  else .ok { curve := c, bytes := rnd.take (privateSize c) }

/-- Toy `NewPrivateKey`: the size check. -/
def NewPrivateKey (c : Curve) (b : Bytes) : Except String Key :=
  if b.length ≠ privateSize c then .error "crypto/ecdh: invalid private key size"
  else .ok { curve := c, bytes := b }

/-- Toy `NewPublicKey`: the size check and, on Weierstrass curves, the tag check. -/
def NewPublicKey (c : Curve) (b : Bytes) : Except String Key :=
  if c = Curve.X25519 then
    if b.length ≠ 32 then .error "crypto/ecdh: invalid public key"
    else .ok { curve := c, bytes := b }
  else
    match b with
    | [] => .error "crypto/ecdh: invalid public key"
    | t :: rest =>
      if t ≠ 4 then .error "crypto/ecdh: invalid public key"
      else if rest.length ≠ 2 * privateSize c then .error "invalid point encoding"
      else .ok { curve := c, bytes := b }

/-- Toy `ECDH`: the bytewise product of the scalar and the peer x-coordinate. -/
def ECDH (k p : Key) : Except String Bytes :=
  if k.curve ≠ p.curve then
    .error "crypto/ecdh: private key and public key curves do not match"
  else .ok (List.zipWith (fun a b => a * b) k.bytes (xPart p.curve p.bytes))

/-- The toy library. -/
def ecdh : Ecdh where
  Rand := Bytes
  PrivateKey := Key
  PublicKey := Key
  GenerateKey := GenerateKey
  NewPrivateKey := NewPrivateKey
  NewPublicKey := NewPublicKey
  publicKeyOf := fun k => { curve := k.curve, bytes := encode k.curve k.bytes }
  privateBytes := fun k => k.bytes
  publicBytes := fun p => p.bytes
  ECDH := ECDH

/-- The characters of a byte string. -/
def toStr (b : Bytes) : String := String.mk (b.map (fun x => Char.ofNat x.val))

/-- The bytes of an ASCII string. -/
def ofStr (s : String) : Bytes := s.toList.map (fun ch => Fin.ofNat ch.toNat)

/-- Toy decoder of a string request: the token between two quote bytes. -/
def UnmarshalString : Bytes → Except String (requestMessage String)
  | [] => .error "unexpected end of JSON input"
  | q :: rest =>
    if q ≠ 34 then .error "invalid character looking for beginning of value"
    else if rest.getLast? ≠ some 34 then .error "unexpected end of JSON input"
    else .ok { Payload := toStr rest.dropLast }

/-- Toy decoder of a key-pair request: the size of the curve name, the name, the
size of the public key, the public key, the private key. -/
def UnmarshalKeyPair : Bytes → Except String (requestMessage EcdhKeyPair)
  | [] => .error "unexpected end of JSON input"
  | n :: rest =>
    if rest.length < n.val then .error "unexpected end of JSON input"
    else
      match rest.drop n.val with
      | [] => .error "unexpected end of JSON input"
      | m :: rest2 =>
        if rest2.length < m.val then .error "unexpected end of JSON input"
        else .ok { Payload := { Curve := toStr (rest.take n.val),
                                PublicKey := rest2.take m.val,
                                PrivateKey := rest2.drop m.val } }

/-- Toy encoder of a string request. -/
def stringRequest (token : String) : Bytes := (34 : Byte) :: (ofStr token ++ [34])

/-- Toy encoder of a key-pair request. -/
def keyPairRequest (kp : EcdhKeyPair) : Bytes :=
  Fin.ofNat kp.Curve.length :: (ofStr kp.Curve ++
    (Fin.ofNat kp.PublicKey.length :: (kp.PublicKey ++ kp.PrivateKey)))

/-- The toy wire format; a response is marshalled to its error message. -/
def json : Json where
  UnmarshalString := UnmarshalString
  UnmarshalKeyPair := UnmarshalKeyPair
  Marshal := fun r =>
    match r with
    | .string m => ofStr m.Error
    | .keyPair m => ofStr m.Error
    | .bytes m => ofStr m.Error

end Toy

/-! ## Lemmas on `checkCurve` and `parseRequest` -/

theorem checkCurve_name (c : Curve) (st : State) :
    checkCurve c.name st = (.ok c, { curve := some c }) := by
  cases c <;> rfl

theorem checkCurve_ok {token : String} {st st1 : State} {c : Curve}
    (h : checkCurve token st = (.ok c, st1)) :
    token = c.name ∧ st1 = { curve := some c } := by
  unfold checkCurve at h
  split_ifs at h with h0 h1 h2 h3 h4 <;>
    simp only [Prod.mk.injEq, Except.ok.injEq, reduceCtorEq, false_and] at h <;>
    obtain ⟨rfl, rfl⟩ := h
  · exact ⟨h1, rfl⟩
  · exact ⟨h2, rfl⟩
  · exact ⟨h3, rfl⟩
  · exact ⟨h4, rfl⟩

theorem checkCurve_error {token : String} {st st1 : State} {e : String}
    (h : checkCurve token st = (.error e, st1)) : st1 = st ∧ e ≠ "" := by
  unfold checkCurve at h
  split_ifs at h with h0 h1 h2 h3 h4 <;>
    simp only [Prod.mk.injEq, Except.error.injEq, reduceCtorEq, false_and] at h <;>
    obtain ⟨rfl, rfl⟩ := h
  · exact ⟨rfl, by decide⟩
  · refine ⟨rfl, ?_⟩
    intro hh
    have := congrArg String.length hh
    simp only [Sprintf_unsupported, String.length_append] at this
    have h5 : "Unsupported curv name: ".length = 23 := by decide
    have h6 : "".length = 0 := rfl
    omega

theorem parseRequest_nil {T : Type} (U : Bytes → Except String (requestMessage T)) :
    parseRequest U [] = .error "Data is empty!\n" := rfl

/-! ## The entry points on a decoded request -/

theorem name_ne_X25519 (c : Curve) : c.name ≠ X25519 ↔ c ≠ Curve.X25519 := by
  cases c <;> simp [Curve.name, P256, P384, P521, X25519]

/-- The function literal of `GenerateKeyPair` on a request that decodes to the name
of a supported curve. -/
theorem generate_func1_supported (E : Ecdh) (J : Json) (data : Bytes)
    (rnd : E.Rand) (st : State) (c : Curve)
    (hreq : parseRequest J.UnmarshalString data = .ok { Payload := c.name }) :
    GenerateKeyPair.func1 E J data rnd st =
      (match E.GenerateKey c rnd with
       | .error err => some (.error err)
       | .ok privateKey =>
         match E.NewPublicKey c (E.publicBytes (E.publicKeyOf privateKey)) with
         | .error err => some (.error err)
         | .ok publicKey =>
           match GenerateKeyPair.changedPablic c.name (E.publicBytes publicKey) with
           | none => none
           | some changedPablic =>
             some (.ok { Curve := c.name, PublicKey := changedPablic,
                         PrivateKey := E.privateBytes privateKey }),
       { curve := some c }) := by
  unfold GenerateKeyPair.func1
  rw [hreq]
  simp only [checkCurve_name]
  cases E.GenerateKey c rnd with
  | error e => rfl
  | ok k =>
    simp only
    cases E.NewPublicKey c (E.publicBytes (E.publicKeyOf k)) with
    | error e => rfl
    | ok p =>
      simp only
      cases GenerateKeyPair.changedPablic c.name (E.publicBytes p) <;> rfl

/-- The function literal of `GetSharedKey` on a request that decodes to a key pair
with the name of a supported curve. -/
theorem derive_func1_supported (E : Ecdh) (J : Json) (data : Bytes)
    (st : State) (c : Curve) (pub priv : Bytes)
    (hreq : parseRequest J.UnmarshalKeyPair data =
      .ok { Payload := { Curve := c.name, PublicKey := pub, PrivateKey := priv } }) :
    GetSharedKey.func1 E J data st =
      (match E.NewPrivateKey c priv with
       | .error err => .error err
       | .ok newPrivateKey =>
         match E.NewPublicKey c (GetSharedKey.changedPablic c.name pub) with
         | .error err => .error err
         | .ok newPublicKey => E.ECDH newPrivateKey newPublicKey,
       { curve := some c }) := by
  unfold GetSharedKey.func1
  rw [hreq]
  simp only [checkCurve_name]
  cases E.NewPrivateKey c priv with
  | error e => rfl
  | ok k =>
    simp only
    cases E.NewPublicKey c (GetSharedKey.changedPablic c.name pub) with
    | error e => rfl
    | ok p =>
      simp only
      cases E.ECDH k p <;> rfl

/-- A key-pair response of `GenerateKeyPair` comes from the success return of its
function literal. -/
theorem generate_response_keyPair {E : Ecdh} {J : Json} {data : Bytes}
    {rnd : E.Rand} {st st1 : State} {m : responseMessage (Option EcdhKeyPair)}
    (h : GenerateKeyPair.response E J data rnd st = (some (.keyPair m), st1)) :
    ∃ kp, m = { Payload := some kp, Error := "" } ∧
      GenerateKeyPair.func1 E J data rnd st = (some (.ok kp), st1) := by
  unfold GenerateKeyPair.response at h
  rcases hf : GenerateKeyPair.func1 E J data rnd st with ⟨r, s⟩
  rw [hf] at h
  rcases r with _ | (e | kp)
  · simp at h
  · simp at h
  · simp only [Prod.mk.injEq, Option.some.injEq, Response.keyPair.injEq] at h
    exact ⟨kp, h.1.symm, by rw [h.2]⟩

/-- A byte response of `GetSharedKey` comes from the success return of its function
literal. -/
theorem derive_response_bytes {E : Ecdh} {J : Json} {data : Bytes}
    {st : State} {m : responseMessage Bytes}
    (h : (GetSharedKey.response E J data st).1 = .bytes m) :
    ∃ sk, m = { Payload := sk, Error := "" } ∧
      (GetSharedKey.func1 E J data st).1 = .ok sk := by
  unfold GetSharedKey.response at h
  rcases hf : GetSharedKey.func1 E J data st with ⟨r, s⟩
  rw [hf] at h
  rcases r with e | sk
  · simp at h
  · simp only [Response.bytes.injEq] at h
    exact ⟨sk, h.symm, rfl⟩

/-! ## The toy instance has the properties -/

namespace Toy

theorem NewPublicKey_ok {c : Curve} {b : Bytes} {p : Key}
    (h : NewPublicKey c b = .ok p) :
    p = { curve := c, bytes := b } ∧ b.length = nativePublicSize c ∧
      (c ≠ Curve.X25519 → ∃ t, b = (4 : Byte) :: t) := by
  unfold NewPublicKey at h
  split_ifs at h with hc hl
  · simp only [Except.ok.injEq] at h
    subst hc
    exact ⟨h.symm, by simpa [nativePublicSize] using hl, fun hx => absurd rfl hx⟩
  · cases b with
    | nil => simp at h
    | cons t rest =>
      simp only at h
      split_ifs at h with ht hr
      simp only [Except.ok.injEq] at h
      simp only [ne_eq, Decidable.not_not] at ht hr
      refine ⟨h.symm, ?_, fun _ => ⟨rest, by rw [ht]⟩⟩
      cases c <;> simp_all [nativePublicSize, privateSize]

theorem GenerateKey_ok {c : Curve} {r : Bytes} {k : Key}
    (h : GenerateKey c r = .ok k) :
    k.curve = c ∧ k.bytes.length = privateSize c := by
  unfold GenerateKey at h
  split_ifs at h with hl
  simp only [Except.ok.injEq] at h
  subst h
  exact ⟨rfl, by simp only [List.length_take]; omega⟩

theorem NewPrivateKey_ok {c : Curve} {b : Bytes} {k : Key}
    (h : NewPrivateKey c b = .ok k) :
    k = { curve := c, bytes := b } ∧ b.length = privateSize c := by
  unfold NewPrivateKey at h
  split_ifs at h with hl
  simp only [Except.ok.injEq] at h
  exact ⟨h.symm, by simpa using hl⟩

theorem xOf_length (scalar : Bytes) : (xOf scalar).length = scalar.length := by
  simp [xOf]

theorem xPart_encode (c : Curve) (scalar : Bytes)
    (h : scalar.length = privateSize c) : xPart c (encode c scalar) = xOf scalar := by
  unfold xPart encode
  by_cases hc : c = Curve.X25519
  · simp [hc]
  · simp only [hc, if_false, List.drop_succ_cons, List.drop_zero]
    exact List.take_left' (by rw [xOf_length, h])

theorem zipWith_xOf_comm (a b : Bytes) :
    List.zipWith (fun x y => x * y) a (xOf b) =
      List.zipWith (fun x y => x * y) b (xOf a) := by
  induction a generalizing b with
  | nil => cases b <;> simp [xOf]
  | cons x xs ih =>
    cases b with
    | nil => simp [xOf]
    | cons y ys =>
      have h := ih ys
      simp only [xOf, List.map_cons, List.zipWith_cons_cons, List.cons.injEq] at h ⊢
      exact ⟨by ring, h⟩

theorem ecdh_keepsPublicBytes : Toy.ecdh.KeepsPublicBytes := by
  intro c b p h
  have hp := (NewPublicKey_ok h).1
  subst hp
  rfl

theorem ecdh_uncompressedTag : Toy.ecdh.UncompressedTag := by
  intro c b p hc h
  exact (NewPublicKey_ok h).2.2 hc

theorem ecdh_nativePublicSize : Toy.ecdh.NativePublicSize := by
  intro c b p h
  have hp := NewPublicKey_ok h
  rw [hp.1]
  exact hp.2.1

theorem ecdh_privateSize : Toy.ecdh.PrivateSize := by
  intro c r k h
  exact (GenerateKey_ok h).2

theorem ecdh_rejectsWrongSize : Toy.ecdh.RejectsWrongSize := by
  intro c b hb
  cases h : Toy.ecdh.NewPublicKey c b with
  | error e => exact ⟨e, rfl⟩
  | ok p => exact absurd (NewPublicKey_ok h).2.1 hb

theorem ecdh_sharedSize : Toy.ecdh.SharedSize := by
  intro c b k c2 b2 p s hk hp hs
  have hk1 := NewPrivateKey_ok hk
  have hp1 := NewPublicKey_ok hp
  rw [hk1.1, hp1.1] at hs
  change ECDH _ _ = _ at hs
  unfold ECDH at hs
  split_ifs at hs with hc
  simp only [ne_eq, Decidable.not_not] at hc
  simp only [Except.ok.injEq] at hs
  subst hs
  subst hc
  have h1 := hk1.2
  have h2 := hp1.2.1
  simp only [List.length_zipWith, xPart]
  cases c <;> simp_all [privateSize, sharedSize, nativePublicSize]

theorem ecdh_reparsesPrivate : Toy.ecdh.ReparsesPrivate := by
  intro c r k h
  have hk := GenerateKey_ok h
  change NewPrivateKey c k.bytes = .ok k
  unfold NewPrivateKey
  rw [if_neg (by simpa using hk.2)]
  cases k
  simp_all

theorem ecdh_agreement : Toy.ecdh.Agreement := by
  intro c ra rb a b pa pb ha hb hpa hpb
  have ha1 := GenerateKey_ok ha
  have hb1 := GenerateKey_ok hb
  have hpa1 := (NewPublicKey_ok hpa).1
  have hpb1 := (NewPublicKey_ok hpb).1
  refine ⟨List.zipWith (fun x y => x * y) a.bytes (xOf b.bytes), ?_, ?_⟩
  · change ECDH a pb = _
    rw [hpb1]
    unfold ECDH
    rw [if_neg (by simpa using ha1.1)]
    change Except.ok (List.zipWith _ a.bytes (xPart c (encode b.curve b.bytes))) = _
    rw [hb1.1, xPart_encode c b.bytes hb1.2]
  · change ECDH b pa = _
    rw [hpa1]
    unfold ECDH
    rw [if_neg (by simpa using hb1.1)]
    change Except.ok (List.zipWith _ b.bytes (xPart c (encode a.curve a.bytes))) = _
    rw [ha1.1, xPart_encode c a.bytes ha1.2, zipWith_xOf_comm]

theorem ecdh_errorsNonEmpty : Toy.ecdh.ErrorsNonEmpty := by
  refine ⟨?_, ?_, ?_, ?_⟩
  · intro c r h
    change GenerateKey c r = _ at h
    unfold GenerateKey at h
    split_ifs at h
    exact absurd (Except.error.inj h) (by decide)
  · intro c b h
    change NewPrivateKey c b = _ at h
    unfold NewPrivateKey at h
    split_ifs at h
    exact absurd (Except.error.inj h) (by decide)
  · intro c b h
    change NewPublicKey c b = _ at h
    unfold NewPublicKey at h
    split_ifs at h
    · exact absurd (Except.error.inj h) (by decide)
    · cases b with
      | nil => exact absurd (Except.error.inj h) (by decide)
      | cons t rest =>
        simp only at h
        split_ifs at h
        · exact absurd (Except.error.inj h) (by decide)
        · exact absurd (Except.error.inj h) (by decide)
  · intro k p h
    change ECDH k p = _ at h
    unfold ECDH at h
    split_ifs at h
    exact absurd (Except.error.inj h) (by decide)

theorem json_errorsNonEmpty : Toy.json.ErrorsNonEmpty := by
  refine ⟨?_, ?_⟩
  · intro d h
    change UnmarshalString d = _ at h
    unfold UnmarshalString at h
    split at h
    · exact absurd (Except.error.inj h) (by decide)
    · split_ifs at h
      · exact absurd (Except.error.inj h) (by decide)
      · exact absurd (Except.error.inj h) (by decide)
  · intro d h
    change UnmarshalKeyPair d = _ at h
    unfold UnmarshalKeyPair at h
    split at h
    · exact absurd (Except.error.inj h) (by decide)
    · split_ifs at h
      · exact absurd (Except.error.inj h) (by decide)
      · split at h
        · exact absurd (Except.error.inj h) (by decide)
        · split_ifs at h
          exact absurd (Except.error.inj h) (by decide)

end Toy

/-! ## Lemmas on the two function literals -/

theorem parseRequest_error_ne {T : Type} (U : Bytes → Except String (requestMessage T))
    (hU : ∀ d, U d ≠ .error "") (data : Bytes) : parseRequest U data ≠ .error "" := by
  unfold parseRequest
  split_ifs
  · exact fun h => absurd (Except.error.inj h) (by decide)
  · have := hU data
    cases hd : U data with
    | error e =>
      rw [hd] at this
      simpa using this
    | ok r => simp

theorem generate_changedPablic_size {c : Curve} {b cp : Bytes}
    (h : GenerateKeyPair.changedPablic c.name b = some cp)
    (hb : b.length = nativePublicSize c) : cp.length = storedPublicSize c := by
  unfold GenerateKeyPair.changedPablic at h
  cases c <;> cases b <;>
    simp_all [Curve.name, P256, P384, P521, X25519, nativePublicSize, storedPublicSize]

theorem changedPablic_round_trip {c : Curve} {t cp : Bytes}
    (hc : c ≠ Curve.X25519 → ∃ r, t = (4 : Byte) :: r)
    (h : GenerateKeyPair.changedPablic c.name t = some cp) :
    GetSharedKey.changedPablic c.name cp = t := by
  unfold GenerateKeyPair.changedPablic at h
  unfold GetSharedKey.changedPablic
  by_cases hx : c = Curve.X25519
  · subst hx
    simpa [Curve.name] using h.symm
  · obtain ⟨r, rfl⟩ := hc hx
    have hn := (name_ne_X25519 c).2 hx
    simp only [hn, ne_eq, not_false_eq_true, if_true, Option.some.injEq] at h ⊢
    subst h
    rfl

theorem generate_func1_supported_ok {E : Ecdh} {J : Json} {data : Bytes}
    {rnd : E.Rand} {st st1 : State} {c : Curve} {kp : EcdhKeyPair}
    (hreq : parseRequest J.UnmarshalString data = .ok { Payload := c.name })
    (h : GenerateKeyPair.func1 E J data rnd st = (some (.ok kp), st1)) :
    ∃ k p cp, E.GenerateKey c rnd = .ok k ∧
      E.NewPublicKey c (E.publicBytes (E.publicKeyOf k)) = .ok p ∧
      GenerateKeyPair.changedPablic c.name (E.publicBytes p) = some cp ∧
      kp = { Curve := c.name, PublicKey := cp, PrivateKey := E.privateBytes k } := by
  rw [generate_func1_supported E J data rnd st c hreq] at h
  cases hk : E.GenerateKey c rnd with
  | error e => rw [hk] at h; simp at h
  | ok k =>
    rw [hk] at h
    simp only at h
    cases hp : E.NewPublicKey c (E.publicBytes (E.publicKeyOf k)) with
    | error e => rw [hp] at h; simp at h
    | ok p =>
      rw [hp] at h
      simp only at h
      cases hcp : GenerateKeyPair.changedPablic c.name (E.publicBytes p) with
      | none => rw [hcp] at h; simp at h
      | some cp =>
        rw [hcp] at h
        simp only [Prod.mk.injEq, Option.some.injEq, Except.ok.injEq] at h
        exact ⟨k, p, cp, rfl, hp, hcp, h.1.symm⟩

theorem generate_func1_returns (E : Ecdh) (J : Json)
    (hk : E.KeepsPublicBytes) (ht : E.UncompressedTag) (data : Bytes) (rnd : E.Rand)
    (st : State) : (GenerateKeyPair.func1 E J data rnd st).1 ≠ none := by
  unfold GenerateKeyPair.func1
  split
  · simp
  · split
    · simp
    · rename_i parse _ curve st1 hc
      split
      · simp
      · split
        · simp
        · rename_i publicKey hp
          split
          · rename_i hcp
            exfalso
            have hname := (checkCurve_ok hc).1
            have hb := hk _ _ _ hp
            unfold GenerateKeyPair.changedPablic at hcp
            by_cases hx : curve = Curve.X25519
            · subst hx
              rw [hname] at hcp
              simp [Curve.name] at hcp
            · obtain ⟨t, ht1⟩ := ht _ _ _ hx hp
              rw [hb, ht1] at hcp
              split_ifs at hcp
          · simp

theorem generate_func1_error_ne (E : Ecdh) (J : Json)
    (hE : E.ErrorsNonEmpty) (hJ : J.ErrorsNonEmpty) (data : Bytes) (rnd : E.Rand)
    (st : State) : (GenerateKeyPair.func1 E J data rnd st).1 ≠ some (.error "") := by
  unfold GenerateKeyPair.func1
  split
  · rename_i err h
    have := parseRequest_error_ne J.UnmarshalString hJ.1 data
    rw [h] at this
    simpa using this
  · split
    · rename_i err st1 hc
      simpa using (checkCurve_error hc).2
    · split
      · rename_i err h
        intro hh
        simp only [Option.some.injEq, Except.error.injEq] at hh
        subst hh
        exact hE.1 _ _ h
      · split
        · rename_i err h
          intro hh
          simp only [Option.some.injEq, Except.error.injEq] at hh
          subst hh
          exact hE.2.2.1 _ _ h
        · split <;> simp

theorem derive_func1_error_ne (E : Ecdh) (J : Json)
    (hE : E.ErrorsNonEmpty) (hJ : J.ErrorsNonEmpty) (data : Bytes) (st : State) :
    (GetSharedKey.func1 E J data st).1 ≠ .error "" := by
  unfold GetSharedKey.func1
  split
  · rename_i err h
    have := parseRequest_error_ne J.UnmarshalKeyPair hJ.2 data
    rw [h] at this
    simpa using this
  · split
    · rename_i err st1 hc
      simpa using (checkCurve_error hc).2
    · simp only
      split
      · rename_i err h
        intro hh
        simp only [Option.some.injEq, Except.error.injEq] at hh
        subst hh
        exact hE.2.1 _ _ h
      · split
        · rename_i err h
          intro hh
          simp only [Option.some.injEq, Except.error.injEq] at hh
          subst hh
          exact hE.2.2.1 _ _ h
        · split
          · rename_i err h
            intro hh
            simp only [Option.some.injEq, Except.error.injEq] at hh
            subst hh
            exact hE.2.2.2 _ _ h
          · simp

theorem sharedSize_pos (c : Curve) : 0 < sharedSize c := by
  cases c <;> decide

theorem derive_func1_ok_size (E : Ecdh) (J : Json) (hS : E.SharedSize)
    (data : Bytes) (st : State) (sk : Bytes)
    (h : (GetSharedKey.func1 E J data st).1 = .ok sk) :
    ∃ c, (∀ r, parseRequest J.UnmarshalKeyPair data = .ok r → r.Payload.Curve = c.name) ∧
      sk.length = sharedSize c := by
  unfold GetSharedKey.func1 at h
  split at h
  · simp at h
  · rename_i dataParse hparse
    split at h
    · simp at h
    · rename_i curve st1 hc
      simp only at h
      split at h
      · simp at h
      · rename_i newPrivateKey hpriv
        split at h
        · simp at h
        · rename_i newPublicKey hpub
          split at h
          · simp at h
          · rename_i sk1 hsk
            simp only [Except.ok.injEq] at h
            subst h
            refine ⟨curve, ?_, hS _ _ _ _ _ _ _ hpriv hpub hsk⟩
            intro r hr
            rw [hparse] at hr
            simp only [Except.ok.injEq] at hr
            subst hr
            exact (checkCurve_ok hc).1

theorem Curve.name_injective {c d : Curve} (h : c.name = d.name) : c = d := by
  cases c <;> cases d <;> first | rfl | (exact absurd h (by decide))

theorem derive_changedPablic_size {c : Curve} {pub : Bytes}
    (h : pub.length ≠ storedPublicSize c) :
    (GetSharedKey.changedPablic c.name pub).length ≠ nativePublicSize c := by
  unfold GetSharedKey.changedPablic
  cases c <;>
    simp_all [Curve.name, P256, P384, P521, X25519, nativePublicSize, storedPublicSize]

/-! ## Claims -/

/-- C4: for every token `checkCurve` succeeds exactly when the token is one of
"P-256", "P-384", "P-521", "X25519", and then returns the curve of that name; on
the empty token it fails with the message of line 151 (`Sprintln` appends a
newline); on any other token it fails with "Unsupported curv name: " followed by
the token, so the message contains the token. -/
theorem C4_checkCurve_resolves (token : String) (st : State) :
    ((∃ c, (checkCurve token st).1 = .ok c) ↔
      (token = "P-256" ∨ token = "P-384" ∨ token = "P-521" ∨ token = "X25519")) ∧
    (∀ c, (checkCurve token st).1 = .ok c → c.name = token) ∧
    (token = "" → (checkCurve token st).1 = .error "Curv name is empty!\n") ∧
    (token ≠ "" →
      ¬ (token = "P-256" ∨ token = "P-384" ∨ token = "P-521" ∨ token = "X25519") →
      (checkCurve token st).1 = .error ("Unsupported curv name: " ++ token) ∧
      ∃ pre post, (checkCurve token st).1 = .error (pre ++ token ++ post)) := by
  refine ⟨⟨?_, ?_⟩, ?_, ?_, ?_⟩
  · rintro ⟨c, hc⟩
    have h := checkCurve_ok (Prod.ext hc rfl : checkCurve token st = (.ok c, _))
    rw [h.1]
    cases c <;> simp [Curve.name, P256, P384, P521, X25519]
  · rintro (h | h | h | h) <;> subst h
    · exact ⟨Curve.P256, rfl⟩
    · exact ⟨Curve.P384, rfl⟩
    · exact ⟨Curve.P521, rfl⟩
    · exact ⟨Curve.X25519, rfl⟩
  · intro c hc
    exact (checkCurve_ok (Prod.ext hc rfl : checkCurve token st = (.ok c, _))).1.symm
  · intro h
    subst h
    rfl
  · intro h0 h
    have hh : (checkCurve token st).1 = .error ("Unsupported curv name: " ++ token) := by
      simp only [not_or] at h
      simp [checkCurve, h0, P256, P384, P521, X25519, h.1, h.2.1, h.2.2.1, h.2.2.2,
        Sprintf_unsupported]
    exact ⟨hh, "Unsupported curv name: ", "", by rw [hh]; simp⟩

/-- C9 (as stated, refuted): called on "P-256" in the initial state, where the
package-level variable `curve` is nil, `checkCurve` leaves `curve` set to the P-256
curve, so the call does not leave the shared state unchanged. -/
theorem C9_counterexample :
    (checkCurve "P-256" { curve := none }).2 = { curve := some Curve.P256 } ∧
    (checkCurve "P-256" { curve := none }).2 ≠ { curve := none } := by
  decide

/-- C9 (amended): the result of `checkCurve` depends only on the token, not on
the prior state; a failing call leaves the state unchanged, and a successful call
overwrites the package-level variable `curve` with the curve it returns. -/
theorem C9_checkCurve_effect (token : String) (st st0 : State) :
    (checkCurve token st).1 = (checkCurve token st0).1 ∧
    (checkCurve token st).2 =
      (match (checkCurve token st).1 with
       | .ok c => { curve := some c }
       | .error _ => st) := by
  unfold checkCurve
  split_ifs <;> exact ⟨rfl, rfl⟩

/-- C3: for "P-256", "P-384" and "P-521" and every native encoding that starts
with the byte 0x04, `GenerateKeyPair` stores the encoding without its first byte
and `GetSharedKey` rebuilds from the stored bytes the original encoding; for
"X25519" the stored and the rebuilt bytes are the native encoding itself. -/
theorem C3_normalization_round_trip (t b : Bytes) :
    (GenerateKeyPair.changedPablic "P-256" ((4 : Byte) :: t) = some t ∧
      GetSharedKey.changedPablic "P-256" t = (4 : Byte) :: t) ∧
    (GenerateKeyPair.changedPablic "P-384" ((4 : Byte) :: t) = some t ∧
      GetSharedKey.changedPablic "P-384" t = (4 : Byte) :: t) ∧
    (GenerateKeyPair.changedPablic "P-521" ((4 : Byte) :: t) = some t ∧
      GetSharedKey.changedPablic "P-521" t = (4 : Byte) :: t) ∧
    (GenerateKeyPair.changedPablic "X25519" b = some b ∧
      GetSharedKey.changedPablic "X25519" b = b) := by
  simp [GenerateKeyPair.changedPablic, GetSharedKey.changedPablic, X25519]

/-- C6: on the empty byte sequence `GenerateKeyPair` and `GetSharedKey` answer
with the error "Data is empty!" (with the newline of `Sprintln`) and the empty
payload, whatever the decoder, the library and the reader are (none of them
is consulted), and the package-level state is left as it was. -/
theorem C6_empty_request (E : Ecdh) (J : Json) (rnd : E.Rand) (st : State) :
    GenerateKeyPair.func1 E J [] rnd st = (some (.error "Data is empty!\n"), st) ∧
    GenerateKeyPair.response E J [] rnd st =
      (some (.string { Payload := "", Error := "Data is empty!\n" }), st) ∧
    GetSharedKey.func1 E J [] st = (.error "Data is empty!\n", st) ∧
    GetSharedKey.response E J [] st =
      (.string { Payload := "", Error := "Data is empty!\n" }, st) := by
  refine ⟨rfl, rfl, rfl, rfl⟩

/-- C5: when `checkCurve` does not resolve the curve name of a well-formed
request, `GenerateKeyPair` and `GetSharedKey` answer with the empty payload and,
as error, exactly the message of the error of `checkCurve`, whatever the key bytes
of the request are; a request for "" is answered with the empty-name message, a
request for "Curve25519" with the unsupported-curve message. -/
theorem C5_unresolved_curve (E : Ecdh) (J : Json) (name : String) (st : State)
    (e : String) (hcheck0 : (checkCurve name st).1 = .error e)
    (dataG : Bytes) (rnd : E.Rand)
    (hG : parseRequest J.UnmarshalString dataG = .ok { Payload := name })
    (dataS pub priv : Bytes)
    (hS : parseRequest J.UnmarshalKeyPair dataS =
      .ok { Payload := { Curve := name, PublicKey := pub, PrivateKey := priv } })
    (dataE : Bytes) (hEm : parseRequest J.UnmarshalString dataE = .ok { Payload := "" })
    (dataU : Bytes)
    (hU : parseRequest J.UnmarshalString dataU = .ok { Payload := "Curve25519" }) :
    GenerateKeyPair.response E J dataG rnd st =
      (some (.string { Payload := "", Error := e }), st) ∧
    GetSharedKey.response E J dataS st = (.string { Payload := "", Error := e }, st) ∧
    GenerateKeyPair.response E J dataE rnd st =
      (some (.string { Payload := "", Error := "Curv name is empty!\n" }), st) ∧
    GenerateKeyPair.response E J dataU rnd st =
      (some (.string { Payload := "", Error := "Unsupported curv name: Curve25519" }),
        st) := by
  have hcheck : checkCurve name st = (.error e, (checkCurve name st).2) :=
    Prod.ext hcheck0 rfl
  have hst := (checkCurve_error hcheck).1
  rw [hst] at hcheck
  have h1 : checkCurve "" st = (.error "Curv name is empty!\n", st) := rfl
  have h2 : checkCurve "Curve25519" st =
      (.error "Unsupported curv name: Curve25519", st) := rfl
  refine ⟨?_, ?_, ?_, ?_⟩
  · simp only [GenerateKeyPair.response, GenerateKeyPair.func1, hG, hcheck]
  · simp only [GetSharedKey.response, GetSharedKey.func1, hS, hcheck]
  · simp only [GenerateKeyPair.response, GenerateKeyPair.func1, hEm, h1]
  · simp only [GenerateKeyPair.response, GenerateKeyPair.func1, hU, h2]

/-- C5 on the toy instance: requests for the unsupported name "secp256k1", for ""
and for "Curve25519". -/
theorem C5_unresolved_curve_witness :
    GenerateKeyPair.response Toy.ecdh Toy.json (Toy.stringRequest "secp256k1") []
        { curve := none } =
      (some (.string { Payload := "", Error := "Unsupported curv name: secp256k1" }),
        { curve := none }) ∧
    GetSharedKey.response Toy.ecdh Toy.json
        (Toy.keyPairRequest { Curve := "secp256k1", PublicKey := [1, 2],
                              PrivateKey := [3] }) { curve := none } =
      (.string { Payload := "", Error := "Unsupported curv name: secp256k1" },
        { curve := none }) ∧
    GenerateKeyPair.response Toy.ecdh Toy.json (Toy.stringRequest "") []
        { curve := none } =
      (some (.string { Payload := "", Error := "Curv name is empty!\n" }),
        { curve := none }) ∧
    GenerateKeyPair.response Toy.ecdh Toy.json (Toy.stringRequest "Curve25519") []
        { curve := none } =
      (some (.string { Payload := "", Error := "Unsupported curv name: Curve25519" }),
        { curve := none }) :=
  C5_unresolved_curve Toy.ecdh Toy.json "secp256k1" { curve := none }
    "Unsupported curv name: secp256k1" rfl
    (Toy.stringRequest "secp256k1") [] rfl
    (Toy.keyPairRequest { Curve := "secp256k1", PublicKey := [1, 2], PrivateKey := [3] })
    [1, 2] [3] rfl
    (Toy.stringRequest "") rfl
    (Toy.stringRequest "Curve25519") rfl

/-- C2: a successful `GenerateKeyPair` on a request for a supported curve returns
a key pair whose curve field is the name of the curve, whose public key has the
stored size of the curve (64, 96, 132, 32) and whose private key has its private
size (32, 48, 66, 32), given that the library's public encodings have the native
sizes 65, 97, 133, 32 and its generated private keys the private sizes. -/
theorem C2_generated_sizes (E : Ecdh) (J : Json) (hpub : E.NativePublicSize)
    (hpriv : E.PrivateSize) (c : Curve) (data : Bytes) (rnd : E.Rand) (st st1 : State)
    (kp : EcdhKeyPair)
    (hreq : parseRequest J.UnmarshalString data = .ok { Payload := c.name })
    (hgen : GenerateKeyPair.response E J data rnd st =
      (some (.keyPair { Payload := some kp, Error := "" }), st1)) :
    kp.Curve = c.name ∧ kp.PublicKey.length = storedPublicSize c ∧
      kp.PrivateKey.length = privateSize c ∧
      (storedPublicSize Curve.P256, storedPublicSize Curve.P384,
        storedPublicSize Curve.P521, storedPublicSize Curve.X25519) = (64, 96, 132, 32) ∧
      (privateSize Curve.P256, privateSize Curve.P384,
        privateSize Curve.P521, privateSize Curve.X25519) = (32, 48, 66, 32) := by
  obtain ⟨kp1, hm, hf⟩ := generate_response_keyPair hgen
  simp only [responseMessage.mk.injEq, Option.some.injEq, and_true] at hm
  subst hm
  obtain ⟨k, p, cp, hk, hp, hcp, rfl⟩ := generate_func1_supported_ok hreq hf
  exact ⟨rfl, generate_changedPablic_size hcp (hpub _ _ _ hp), hpriv _ _ _ hk,
    rfl, rfl⟩

/-- C2 on the toy instance: a P-384 key pair. -/
theorem C2_generated_sizes_witness :
    ("P-384" = Curve.P384.name ∧
      (List.replicate 96 (15 : Byte)).length = storedPublicSize Curve.P384 ∧
      (List.replicate 48 (5 : Byte)).length = privateSize Curve.P384 ∧
      (storedPublicSize Curve.P256, storedPublicSize Curve.P384,
        storedPublicSize Curve.P521, storedPublicSize Curve.X25519) = (64, 96, 132, 32) ∧
      (privateSize Curve.P256, privateSize Curve.P384,
        privateSize Curve.P521, privateSize Curve.X25519) = (32, 48, 66, 32)) :=
  C2_generated_sizes Toy.ecdh Toy.json Toy.ecdh_nativePublicSize Toy.ecdh_privateSize
    Curve.P384 (Toy.stringRequest "P-384") (List.replicate 48 (5 : Byte))
    { curve := none } { curve := some Curve.P384 }
    { Curve := "P-384", PublicKey := List.replicate 96 15,
      PrivateKey := List.replicate 48 5 }
    rfl (by decide)

/-- C10: when `GetSharedKey` succeeds on a request for a supported curve, the
shared secret it returns has the shared size of the curve (32, 48, 66, 32), given
that the library's `ECDH` results have these sizes. -/
theorem C10_shared_secret_size (E : Ecdh) (J : Json) (hS : E.SharedSize) (c : Curve)
    (data pub priv : Bytes) (st : State) (sk : Bytes)
    (hreq : parseRequest J.UnmarshalKeyPair data =
      .ok { Payload := { Curve := c.name, PublicKey := pub, PrivateKey := priv } })
    (hok : (GetSharedKey.response E J data st).1 = .bytes { Payload := sk, Error := "" }) :
    sk.length = sharedSize c ∧
      (sharedSize Curve.P256, sharedSize Curve.P384, sharedSize Curve.P521,
        sharedSize Curve.X25519) = (32, 48, 66, 32) := by
  obtain ⟨sk1, hm, hf⟩ := derive_response_bytes hok
  simp only [responseMessage.mk.injEq, and_true] at hm
  subst hm
  obtain ⟨c1, hc1, hlen⟩ := derive_func1_ok_size E J hS data st sk hf
  have hcc : c = c1 := Curve.name_injective (hc1 _ hreq)
  subst hcc
  exact ⟨hlen, rfl⟩

/-- C10 on the toy instance: a P-256 derivation. -/
theorem C10_shared_secret_size_witness :
    (List.replicate 32 (63 : Byte)).length = sharedSize Curve.P256 ∧
      (sharedSize Curve.P256, sharedSize Curve.P384, sharedSize Curve.P521,
        sharedSize Curve.X25519) = (32, 48, 66, 32) :=
  C10_shared_secret_size Toy.ecdh Toy.json Toy.ecdh_sharedSize Curve.P256
    (Toy.keyPairRequest { Curve := "P-256", PublicKey := List.replicate 64 7,
                          PrivateKey := List.replicate 32 9 })
    (List.replicate 64 7) (List.replicate 32 9) { curve := none }
    (List.replicate 32 63) rfl (by decide)

/-- C7 (as stated, refuted): a P-256 request whose public key is empty (size 0,
not 64) and whose private key is empty as well is answered with the error of
parsing the private key (main.go:128-131), not with the error that parsing the
peer public key gives. -/
theorem C7_counterexample :
    Toy.ecdh.RejectsWrongSize ∧
    parseRequest Toy.json.UnmarshalKeyPair
        (Toy.keyPairRequest { Curve := "P-256", PublicKey := [], PrivateKey := [] }) =
      .ok { Payload := { Curve := Curve.P256.name, PublicKey := [], PrivateKey := [] } } ∧
    ([] : Bytes).length ≠ storedPublicSize Curve.P256 ∧
    Toy.ecdh.NewPublicKey Curve.P256 (GetSharedKey.changedPablic "P-256" []) =
      .error "invalid point encoding" ∧
    GetSharedKey.response Toy.ecdh Toy.json
        (Toy.keyPairRequest { Curve := "P-256", PublicKey := [], PrivateKey := [] })
        { curve := none } =
      (.string { Payload := "", Error := "crypto/ecdh: invalid private key size" },
        { curve := some Curve.P256 }) :=
  ⟨Toy.ecdh_rejectsWrongSize, rfl, by decide, rfl, rfl⟩

/-- C7 (amended): a derivation request on a supported curve whose public key has
a size other than the stored size of the curve (64, 96, 132, 32) is answered with
an error and no shared-secret bytes: with the error of parsing the private key when
the library rejects the private key, and otherwise with the error of parsing the
peer public key (given that the library rejects encodings of the wrong size). -/
theorem C7_wrong_size_public_key (E : Ecdh) (J : Json) (hR : E.RejectsWrongSize)
    (c : Curve) (data pub priv : Bytes) (st : State)
    (hreq : parseRequest J.UnmarshalKeyPair data =
      .ok { Payload := { Curve := c.name, PublicKey := pub, PrivateKey := priv } })
    (hsize : pub.length ≠ storedPublicSize c) :
    ∃ e, GetSharedKey.response E J data st =
        (.string { Payload := "", Error := e }, { curve := some c }) ∧
      (E.NewPrivateKey c priv = .error e ∨
        ((∃ k, E.NewPrivateKey c priv = .ok k) ∧
          E.NewPublicKey c (GetSharedKey.changedPablic c.name pub) = .error e)) := by
  obtain ⟨e, he⟩ := hR c _ (derive_changedPablic_size hsize)
  unfold GetSharedKey.response
  rw [derive_func1_supported E J data st c pub priv hreq]
  cases hk : E.NewPrivateKey c priv with
  | error e1 => exact ⟨e1, rfl, Or.inl rfl⟩
  | ok k =>
    refine ⟨e, ?_, Or.inr ⟨⟨k, rfl⟩, he⟩⟩
    simp only [he]

/-- C7 (amended) on the toy instance: a P-256 request with a 10-byte public key
and a well-formed private key. -/
theorem C7_wrong_size_public_key_witness :
    ∃ e, GetSharedKey.response Toy.ecdh Toy.json
          (Toy.keyPairRequest { Curve := "P-256", PublicKey := List.replicate 10 1,
                                PrivateKey := List.replicate 32 9 })
          { curve := none } =
        (.string { Payload := "", Error := e }, { curve := some Curve.P256 }) ∧
      (Toy.ecdh.NewPrivateKey Curve.P256 (List.replicate 32 9) = .error e ∨
        ((∃ k, Toy.ecdh.NewPrivateKey Curve.P256 (List.replicate 32 9) = .ok k) ∧
          Toy.ecdh.NewPublicKey Curve.P256
            (GetSharedKey.changedPablic Curve.P256.name (List.replicate 10 1)) =
            .error e)) :=
  C7_wrong_size_public_key Toy.ecdh Toy.json Toy.ecdh_rejectsWrongSize Curve.P256
    (Toy.keyPairRequest { Curve := "P-256", PublicKey := List.replicate 10 1,
                          PrivateKey := List.replicate 32 9 })
    (List.replicate 10 1) (List.replicate 32 9) { curve := none } rfl (by decide)

/-- C8: for every input byte sequence, `GenerateKeyPair` returns a response that is
either the key pair computed by its function literal with the empty error, or the
empty payload with a non-empty error, and `GetSharedKey` returns either the
non-empty shared secret computed by its function literal with the empty error, or
the empty payload with a non-empty error (given that the messages of the errors of
the library and of the decoder are non-empty, that accepted Weierstrass encodings
start with 0x04 and are returned unchanged, and that shared secrets have the
per-curve size). -/
theorem C8_one_side_populated (E : Ecdh) (J : Json) (hE : E.ErrorsNonEmpty)
    (hJ : J.ErrorsNonEmpty) (hK : E.KeepsPublicBytes) (hT : E.UncompressedTag)
    (hS : E.SharedSize) (data : Bytes) (rnd : E.Rand) (st : State) :
    ((∃ kp, (GenerateKeyPair.func1 E J data rnd st).1 = some (.ok kp) ∧
        (GenerateKeyPair.response E J data rnd st).1 =
          some (.keyPair { Payload := some kp, Error := "" })) ∨
      (∃ e, e ≠ "" ∧ (GenerateKeyPair.func1 E J data rnd st).1 = some (.error e) ∧
        (GenerateKeyPair.response E J data rnd st).1 =
          some (.string { Payload := "", Error := e }))) ∧
    ((∃ sk, sk ≠ [] ∧ (GetSharedKey.func1 E J data st).1 = .ok sk ∧
        (GetSharedKey.response E J data st).1 =
          .bytes { Payload := sk, Error := "" }) ∨
      (∃ e, e ≠ "" ∧ (GetSharedKey.func1 E J data st).1 = .error e ∧
        (GetSharedKey.response E J data st).1 =
          .string { Payload := "", Error := e })) := by
  constructor
  · have h1 := generate_func1_returns E J hK hT data rnd st
    have h2 := generate_func1_error_ne E J hE hJ data rnd st
    unfold GenerateKeyPair.response
    rcases hf : GenerateKeyPair.func1 E J data rnd st with ⟨r, s⟩
    rw [hf] at h1 h2
    rcases r with _ | (e | kp)
    · exact absurd rfl h1
    · refine Or.inr ⟨e, ?_, rfl, rfl⟩
      intro he
      subst he
      exact h2 rfl
    · exact Or.inl ⟨kp, rfl, rfl⟩
  · have h2 := derive_func1_error_ne E J hE hJ data st
    have h3 := derive_func1_ok_size E J hS data st
    unfold GetSharedKey.response
    rcases hf : GetSharedKey.func1 E J data st with ⟨r, s⟩
    rw [hf] at h2 h3
    rcases r with e | sk
    · refine Or.inr ⟨e, ?_, rfl, rfl⟩
      intro he
      subst he
      exact h2 rfl
    · refine Or.inl ⟨sk, ?_, rfl, rfl⟩
      obtain ⟨c, -, hlen⟩ := h3 sk rfl
      intro hnil
      subst hnil
      have := sharedSize_pos c
      simp at hlen
      omega

/-- C8 on the toy instance: the bytes of a key-pair request for X25519, given to
both entry points. -/
theorem C8_one_side_populated_witness :
    ((∃ kp, (GenerateKeyPair.func1 Toy.ecdh Toy.json
          (Toy.keyPairRequest { Curve := "X25519", PublicKey := List.replicate 32 7,
                                PrivateKey := List.replicate 32 9 })
          (List.replicate 32 (5 : Byte)) { curve := none }).1 = some (.ok kp) ∧
        (GenerateKeyPair.response Toy.ecdh Toy.json
          (Toy.keyPairRequest { Curve := "X25519", PublicKey := List.replicate 32 7,
                                PrivateKey := List.replicate 32 9 })
          (List.replicate 32 (5 : Byte)) { curve := none }).1 =
          some (.keyPair { Payload := some kp, Error := "" })) ∨
      (∃ e, e ≠ "" ∧ (GenerateKeyPair.func1 Toy.ecdh Toy.json
          (Toy.keyPairRequest { Curve := "X25519", PublicKey := List.replicate 32 7,
                                PrivateKey := List.replicate 32 9 })
          (List.replicate 32 (5 : Byte)) { curve := none }).1 = some (.error e) ∧
        (GenerateKeyPair.response Toy.ecdh Toy.json
          (Toy.keyPairRequest { Curve := "X25519", PublicKey := List.replicate 32 7,
                                PrivateKey := List.replicate 32 9 })
          (List.replicate 32 (5 : Byte)) { curve := none }).1 =
          some (.string { Payload := "", Error := e }))) ∧
    ((∃ sk, sk ≠ [] ∧ (GetSharedKey.func1 Toy.ecdh Toy.json
          (Toy.keyPairRequest { Curve := "X25519", PublicKey := List.replicate 32 7,
                                PrivateKey := List.replicate 32 9 })
          { curve := none }).1 = .ok sk ∧
        (GetSharedKey.response Toy.ecdh Toy.json
          (Toy.keyPairRequest { Curve := "X25519", PublicKey := List.replicate 32 7,
                                PrivateKey := List.replicate 32 9 })
          { curve := none }).1 = .bytes { Payload := sk, Error := "" }) ∨
      (∃ e, e ≠ "" ∧ (GetSharedKey.func1 Toy.ecdh Toy.json
          (Toy.keyPairRequest { Curve := "X25519", PublicKey := List.replicate 32 7,
                                PrivateKey := List.replicate 32 9 })
          { curve := none }).1 = .error e ∧
        (GetSharedKey.response Toy.ecdh Toy.json
          (Toy.keyPairRequest { Curve := "X25519", PublicKey := List.replicate 32 7,
                                PrivateKey := List.replicate 32 9 })
          { curve := none }).1 = .string { Payload := "", Error := e })) :=
  C8_one_side_populated Toy.ecdh Toy.json Toy.ecdh_errorsNonEmpty Toy.json_errorsNonEmpty
    Toy.ecdh_keepsPublicBytes Toy.ecdh_uncompressedTag Toy.ecdh_sharedSize
    (Toy.keyPairRequest { Curve := "X25519", PublicKey := List.replicate 32 7,
                          PrivateKey := List.replicate 32 9 })
    (List.replicate 32 (5 : Byte)) { curve := none }

/-- C1: on every supported curve, for two key pairs A and B returned by
successful `GenerateKeyPair` calls, `GetSharedKey` on the private key of A with the
public key of B and on the private key of B with the public key of A both succeed
and return the same bytes (given Diffie-Hellman agreement of the library on
generated keys, that it re-parses the private keys it generates, and that accepted
public encodings are returned unchanged and, on Weierstrass curves, start with
0x04). -/
theorem C1_ecdh_symmetry (E : Ecdh) (J : Json) (hK : E.KeepsPublicBytes)
    (hT : E.UncompressedTag) (hP : E.ReparsesPrivate) (hA : E.Agreement) (c : Curve)
    (reqA reqB : Bytes) (rndA rndB : E.Rand) (stA stA1 stB stB1 : State)
    (A B : EcdhKeyPair)
    (hreqA : parseRequest J.UnmarshalString reqA = .ok { Payload := c.name })
    (hreqB : parseRequest J.UnmarshalString reqB = .ok { Payload := c.name })
    (hgenA : GenerateKeyPair.response E J reqA rndA stA =
      (some (.keyPair { Payload := some A, Error := "" }), stA1))
    (hgenB : GenerateKeyPair.response E J reqB rndB stB =
      (some (.keyPair { Payload := some B, Error := "" }), stB1))
    (dataAB dataBA : Bytes) (st1 st2 : State)
    (hAB : parseRequest J.UnmarshalKeyPair dataAB =
      .ok { Payload := { Curve := c.name, PublicKey := B.PublicKey,
                         PrivateKey := A.PrivateKey } })
    (hBA : parseRequest J.UnmarshalKeyPair dataBA =
      .ok { Payload := { Curve := c.name, PublicKey := A.PublicKey,
                         PrivateKey := B.PrivateKey } }) :
    ∃ sk, (GetSharedKey.response E J dataAB st1).1 =
        .bytes { Payload := sk, Error := "" } ∧
      (GetSharedKey.response E J dataBA st2).1 =
        .bytes { Payload := sk, Error := "" } := by
  obtain ⟨A1, hmA, hfA⟩ := generate_response_keyPair hgenA
  obtain ⟨B1, hmB, hfB⟩ := generate_response_keyPair hgenB
  simp only [responseMessage.mk.injEq, Option.some.injEq, and_true] at hmA hmB
  subst hmA hmB
  obtain ⟨a, pa, cpa, ha, hpa, hcpa, rfl⟩ := generate_func1_supported_ok hreqA hfA
  obtain ⟨b, pb, cpb, hb, hpb, hcpb, rfl⟩ := generate_func1_supported_ok hreqB hfB
  obtain ⟨sk, h1, h2⟩ := hA c rndA rndB a b pa pb ha hb hpa hpb
  have hra : GetSharedKey.changedPablic c.name cpa = E.publicBytes (E.publicKeyOf a) := by
    have := changedPablic_round_trip (fun hx => hT c _ pa hx (hK c _ pa hpa ▸ hpa)) hcpa
    rw [this, hK c _ pa hpa]
  have hrb : GetSharedKey.changedPablic c.name cpb = E.publicBytes (E.publicKeyOf b) := by
    have := changedPablic_round_trip (fun hx => hT c _ pb hx (hK c _ pb hpb ▸ hpb)) hcpb
    rw [this, hK c _ pb hpb]
  refine ⟨sk, ?_, ?_⟩
  · unfold GetSharedKey.response
    rw [derive_func1_supported E J dataAB st1 c _ _ hAB]
    simp only [hP c rndA a ha, hrb, hpb, h1]
  · unfold GetSharedKey.response
    rw [derive_func1_supported E J dataBA st2 c _ _ hBA]
    simp only [hP c rndB b hb, hra, hpa, h2]

/-- C1 on the toy instance: two P-256 key pairs and the two derivations. -/
theorem C1_ecdh_symmetry_witness :
    ∃ sk, (GetSharedKey.response Toy.ecdh Toy.json
          (Toy.keyPairRequest { Curve := "P-256", PublicKey := List.replicate 64 21,
                                PrivateKey := List.replicate 32 5 })
          { curve := none }).1 = .bytes { Payload := sk, Error := "" } ∧
      (GetSharedKey.response Toy.ecdh Toy.json
          (Toy.keyPairRequest { Curve := "P-256", PublicKey := List.replicate 64 15,
                                PrivateKey := List.replicate 32 7 })
          { curve := none }).1 = .bytes { Payload := sk, Error := "" } :=
  C1_ecdh_symmetry Toy.ecdh Toy.json Toy.ecdh_keepsPublicBytes Toy.ecdh_uncompressedTag
    Toy.ecdh_reparsesPrivate Toy.ecdh_agreement Curve.P256
    (Toy.stringRequest "P-256") (Toy.stringRequest "P-256")
    (List.replicate 32 (5 : Byte)) (List.replicate 32 (7 : Byte))
    { curve := none } { curve := some Curve.P256 }
    { curve := some Curve.P256 } { curve := some Curve.P256 }
    { Curve := "P-256", PublicKey := List.replicate 64 15,
      PrivateKey := List.replicate 32 5 }
    { Curve := "P-256", PublicKey := List.replicate 64 21,
      PrivateKey := List.replicate 32 7 }
    rfl rfl (by decide) (by decide)
    (Toy.keyPairRequest { Curve := "P-256", PublicKey := List.replicate 64 21,
                          PrivateKey := List.replicate 32 5 })
    (Toy.keyPairRequest { Curve := "P-256", PublicKey := List.replicate 64 15,
                          PrivateKey := List.replicate 32 7 })
    { curve := none } { curve := none } rfl rfl

end Main
